import Mathlib

/-!
Shallow embedding of the LangGraph content pipeline in
`src/agents/langgraph_workflow.py` (the design-target orchestrator of the
AI-Agent-Trend-Writer repository), together with theorems settling the
frozen claims about it.

Modelling conventions:
* Python exceptions are `Except String`; a fetched page is modelled
  abstractly by which CSS selectors match and which markup flags hold,
  since the claims only depend on those observations.
* The generation backend (`llm.invoke` on a [SystemMessage, HumanMessage]
  pair) is an opaque function from the two message contents to
  `Except String String`; backend calls are counted by instrumented
  per-item functions so that call-count claims are provable.
* `exec` of synthesized program text is given semantics by an opaque
  `Sandbox` environment mapping the program text to its behaviour;
  nontermination of the synthesized program is an explicit behaviour,
  and a stage that runs a nonterminating program yields `StepRes.div`
  (the stage itself never returns) because the source contains no
  timeout construct at this call site.
* The progress callback lives next to the state rather than inside it
  (in the source it is a field of the TypedDict state, set once at run
  start and only ever read), so that states carry no function values.
-/

/-- Model of a Python runtime value, as produced by a synthesized
program's `main` function and consumed with Python truthiness. -/
inductive PyVal where
  | pynone
  | pystr (s : String)
  | pyint (n : Int)
  | pybool (b : Bool)
  | pylist (xs : List PyVal)
  | pydict (kvs : List (String × PyVal))

/-- Python truthiness of a value (`if item['data']:`). -/
def PyVal.truthy : PyVal → Bool
  | .pynone => false
  | .pystr s => !s.isEmpty
  | .pyint n => n != 0
  | .pybool b => b
  | .pylist xs => !xs.isEmpty
  | .pydict kvs => !kvs.isEmpty

/-- The `meta_info` dict built by `analyze_website_structure`: either the
dict of collected page facts (success path) or the single-key error dict
built in the `except` branch. -/
inductive MetaInfo where
  | collected (domain : String) (has_json_ld : Bool) (has_meta_description : Bool)
      (page_lang : Option String) (total_elements : Nat) (has_structured_data : Bool)
  | failure (error : String)
deriving DecidableEq

/-- Abstract model of a successfully fetched and parsed page (a
BeautifulSoup object): the observations `analyze_website_structure`
makes of it. `selectorHit s` says whether `soup.select(s)` is non-empty. -/
structure Page where
  title : Option String
  selectorHit : String → Bool
  hasJsonLdScript : Bool
  hasMetaDescription : Bool
  htmlLang : Option String
  totalElements : Nat
  hasItemscopeOrVocab : Bool

/-- Result record of `analyze_website_structure` (dataclass
`WebsiteStructure` in the source). -/
structure WebsiteStructure where
  url : String
  title : String
  main_content_selectors : List String
  text_selectors : List String
  image_selectors : List String
  link_selectors : List String
  meta_info : MetaInfo
  suggested_approach : String
deriving DecidableEq

/-- First index (in characters) at which `pat` occurs in the list, as in
Python `str.find`; `none` when absent. -/
def findSub (pat : List Char) : List Char → Option Nat
  | [] => if pat.isEmpty then some 0 else none
  | c :: rest =>
    if pat.isPrefixOf (c :: rest) then some 0
    else (findSub pat rest).map (· + 1)

/-- Python `str.strip()`: drop leading and trailing whitespace. -/
def pyStrip (s : String) : String :=
  String.mk (((s.data.dropWhile Char.isWhitespace).reverse.dropWhile Char.isWhitespace).reverse)

/-- Model of `urlparse(url).netloc` for `scheme://host/...`-shaped URLs:
the text between the first `://` and the next `/`. -/
def netloc (url : String) : String :=
  match findSub (String.data "://") url.data with
  | none => ""
  | some i => String.mk ((url.data.drop (i + 3)).takeWhile (fun c => c ≠ '/'))

/-- Candidate main-content selectors probed in order by the source. -/
def mainContentCandidates : List String :=
  ["main", "article", ".content", ".main-content", "#content", ".post", ".entry"]

/-- Candidate text selectors probed in order by the source. -/
def textCandidates : List String :=
  ["p", "h1", "h2", "h3", ".text", ".description", ".summary"]

/-- Candidate image selectors probed in order by the source. -/
def imageCandidates : List String :=
  ["img", ".image", ".photo", "figure img"]

/-- Candidate link selectors probed in order by the source. -/
def linkCandidates : List String :=
  ["a[href]", ".link", ".more-link"]

/-- Embedding of `analyze_website_structure`. The whole `try` body
(fetch, `raise_for_status`, parse) is a single fallible step `fetch`;
any of its faults lands in the `except` branch, which builds the
degraded fingerprint. -/
def analyze_website_structure (fetch : String → Except String Page) (url : String) :
    WebsiteStructure :=
  match fetch url with
  | Except.ok soup =>
    let title_text :=
      match soup.title with
      | some t => pyStrip t
      | none => "No title found"
    let mains := mainContentCandidates.filter soup.selectorHit
    let texts := textCandidates.filter soup.selectorHit
    let images := imageCandidates.filter soup.selectorHit
    let links := linkCandidates.filter soup.selectorHit
    let suggested :=
      if soup.hasJsonLdScript then "json-ld"
      else if !mains.isEmpty then "content-selector"
      else if !texts.isEmpty then "text-extraction"
      else "general-scraping"
    { url := url
      title := title_text
      main_content_selectors := mains.take 3
      text_selectors := texts.take 5
      image_selectors := images.take 3
      link_selectors := links.take 3
      meta_info := MetaInfo.collected (netloc url) soup.hasJsonLdScript
        soup.hasMetaDescription soup.htmlLang soup.totalElements soup.hasItemscopeOrVocab
      suggested_approach := suggested }
  | Except.error e =>
    { url := url
      title := "Analysis failed"
      main_content_selectors := []
      text_selectors := ["p", "h1", "h2", "h3"]
      image_selectors := ["img"]
      link_selectors := ["a"]
      meta_info := MetaInfo.failure e
      suggested_approach := "general-scraping" }

/-- Result of one pipeline step: the step may never return (`div`, the
embedding of nontermination), raise an uncaught Python exception
(`exn`), or return normally. -/
inductive StepRes (α : Type) where
  | div
  | exn (e : String)
  | ok (a : α)
deriving DecidableEq

/-- Sequencing of steps: divergence and uncaught exceptions propagate. -/
def StepRes.bind {α β : Type} : StepRes α → (α → StepRes β) → StepRes β
  | .div, _ => .div
  | .exn e, _ => .exn e
  | .ok a, f => f a

/-- A progress callback: invoked with a milestone string, it may return
normally or raise. -/
abbrev ProgressCallback := String → Except String Unit

/-- Embedding of `if state.get('progress_callback'): state['progress_callback'](msg)`.
The call is not guarded by any try, so a raising callback raises out of
the node. -/
def fireCallback (cb : Option ProgressCallback) (msg : String) : StepRes Unit :=
  match cb with
  | none => .ok ()
  | some f =>
    match f msg with
    | Except.ok _ => .ok ()
    | Except.error e => .exn e

/-- Record appended by `analyze_urls_node` for one URL. -/
structure AnalysisRecord where
  url : String
  struct : Option WebsiteStructure
  analysis_success : Bool
  error : Option String
deriving DecidableEq

/-- Record appended by `generate_scraping_code_node` for one URL. -/
structure ScrapingCode where
  url : String
  code : Option String
  generation_success : Bool
  error : Option String
  structure_info : Option String
deriving DecidableEq

/-- Record appended by `execute_scraping_code_node` for one URL. On the
failure paths the source stores `data = None`, embedded as `PyVal.pynone`. -/
structure ScrapedItem where
  url : String
  data : PyVal
  execution_success : Bool
  error : Option String

/-- The LangGraph `WorkflowState` TypedDict (minus the callback field,
modelled as a separate parameter; see the header note). -/
structure WorkflowState where
  topic : String
  trend_urls : List String
  website_analyses : List AnalysisRecord
  scraping_codes : List ScrapingCode
  scraped_data : List ScrapedItem
  summary : String
  video_script : String
  social_media : String
  error_messages : List String

/-- The generation backend: `llm.invoke([SystemMessage(sys), HumanMessage(hum)])`,
returning the response content or a raised fault. -/
abbrev LLM := String → String → Except String String

/-- A single-quote character, used when rendering Python string reprs. -/
def pyq : String := String.mk [Char.ofNat 39]

/-- Python repr of a list of strings, as interpolated into f-strings. -/
def pyReprStrList (xs : List String) : String :=
  "[" ++ String.intercalate ", " (xs.map (fun s => pyq ++ s ++ pyq)) ++ "]"

/-- Python repr of a bool. -/
def pyReprBool (b : Bool) : String := if b then "True" else "False"

/-- Rendering of the `meta_info` dict as interpolated into the analysis
text (Python dict repr, abstracted: the lang element is rendered by its
attribute value). -/
def metaRepr : MetaInfo → String
  | MetaInfo.collected d jl md lang te sd =>
    "\x7b" ++ pyq ++ "domain" ++ pyq ++ ": " ++ pyq ++ d ++ pyq ++
    ", " ++ pyq ++ "has_json_ld" ++ pyq ++ ": " ++ pyReprBool jl ++
    ", " ++ pyq ++ "has_meta_description" ++ pyq ++ ": " ++ pyReprBool md ++
    ", " ++ pyq ++ "page_lang" ++ pyq ++ ": " ++
      (match lang with | none => "None" | some l => pyq ++ l ++ pyq) ++
    ", " ++ pyq ++ "total_elements" ++ pyq ++ ": " ++ toString te ++
    ", " ++ pyq ++ "has_structured_data" ++ pyq ++ ": " ++ pyReprBool sd ++ "\x7d"
  | MetaInfo.failure e =>
    "\x7b" ++ pyq ++ "error" ++ pyq ++ ": " ++ pyq ++ e ++ pyq ++ "\x7d"

/-- Characters of the opening python code fence searched for by the
code-extraction logic. -/
def pyFenceChars : List Char := String.data "\x60\x60\x60python"

/-- Characters of a bare code fence. -/
def fenceChars : List Char := String.data "\x60\x60\x60"

/-- Embedding of the fenced-code extraction in `generate_scraping_code_node`:
if the response contains an opening python fence, take the text up to the
next closing fence and strip it; if the closing fence is missing, or the
opening fence is absent, keep the full response. -/
def extract_code (s : String) : String :=
  match findSub pyFenceChars s.data with
  | none => s
  | some i =>
    let tl := s.data.drop (i + 9)
    match findSub fenceChars tl with
    | none => s
    | some j =>
      String.mk (((tl.take j).dropWhile Char.isWhitespace).reverse.dropWhile
        Char.isWhitespace).reverse

/-- Leading part of the code-agent system prompt, before the interpolated
analysis text. -/
def codeAgentPromptA : String :=
  "你是一個專業的爬蟲程式碼生成專家。根據提供的網站結構分析，生成高效的Python爬蟲程式碼。\n\n要求：\n1. 生成的程式碼必須是完整可執行的\n2. 包含錯誤處理和重試機制\n3. 提取網站的主要內容、標題、文本、圖片URL等\n4. 返回結構化的JSON格式數據\n5. 使用requests和BeautifulSoup庫\n\n網站結構分析結果：\n"

/-- Trailing part of the code-agent system prompt. -/
def codeAgentPromptB : String :=
  "\n\n請生成針對此網站的爬蟲程式碼，程式碼應該包含一個main函數，接受url參數並返回爬取結果。"

/-- The `analysis_text` f-string rendered from a `WebsiteStructure`. -/
def analysisText (s : WebsiteStructure) : String :=
  "\nURL: " ++ s.url ++
  "\n標題: " ++ s.title ++
  "\n建議方法: " ++ s.suggested_approach ++
  "\n主要內容選擇器: " ++ pyReprStrList s.main_content_selectors ++
  "\n文本選擇器: " ++ pyReprStrList s.text_selectors ++
  "\n圖片選擇器: " ++ pyReprStrList s.image_selectors ++
  "\nMeta信息: " ++ metaRepr s.meta_info ++
  "\n            "

/-- Message the ill-formed-record path would raise (accessing an
attribute of a `None` structure); unreachable from composed runs. -/
def noneStructError : String := "NoneType object has no attribute url"

/-- Embedding of one iteration of the loop in `generate_scraping_code_node`,
instrumented with the number of generation-backend calls it makes (0 or 1). -/
def synthesize_one (llm : LLM) (wa : AnalysisRecord) : ScrapingCode × Nat :=
  if wa.analysis_success = false then
    ({ url := wa.url, code := none, generation_success := false,
       error := some (wa.error.getD "Unknown error"), structure_info := none }, 0)
  else
    match wa.struct with
    | none =>
      ({ url := wa.url, code := none, generation_success := false,
         error := some noneStructError, structure_info := none }, 0)
    | some s =>
      let analysis_text := analysisText s
      match llm (codeAgentPromptA ++ analysis_text ++ codeAgentPromptB)
          ("為 " ++ s.url ++ " 生成爬蟲程式碼") with
      | Except.ok resp =>
        ({ url := s.url, code := some (extract_code resp), generation_success := true,
           error := none, structure_info := some analysis_text }, 1)
      | Except.error e =>
        ({ url := wa.url, code := none, generation_success := false,
           error := some e, structure_info := none }, 1)

/-- Number of generation-backend calls the synthesis stage makes over a
list of analysis records. -/
def synth_calls (llm : LLM) (was : List AnalysisRecord) : Nat :=
  (was.map (fun wa => (synthesize_one llm wa).2)).sum

/-- Embedding of the try/except around one URL in `analyze_urls_node`:
the analyzer is a fallible call; its fault (if any) lands in the except
branch, which records a failed analysis. -/
def analyze_one (analyzer : String → Except String WebsiteStructure) (url : String) :
    AnalysisRecord :=
  match analyzer url with
  | Except.ok a => { url := url, struct := some a, analysis_success := true, error := none }
  | Except.error e => { url := url, struct := none, analysis_success := false, error := some e }

/-- Body of `analyze_urls_node` (after its progress-callback line): probe
the first 3 trend URLs. `analyze_website_structure` is total, so the
call within the per-URL try never raises, embedded as an `Except.ok`
wrapped analyzer. -/
def analyze_urls_core (fetch : String → Except String Page) (st : WorkflowState) :
    WorkflowState :=
  { st with
    website_analyses :=
      (st.trend_urls.take 3).map
        (analyze_one (fun u => Except.ok (analyze_website_structure fetch u))) }

/-- Body of `generate_scraping_code_node` (after its progress-callback
line), paired with the total number of generation-backend calls made. -/
def generate_scraping_code_core (llm : LLM) (st : WorkflowState) : WorkflowState × Nat :=
  ({ st with
     scraping_codes := st.website_analyses.map (fun wa => (synthesize_one llm wa).1) },
   synth_calls llm st.website_analyses)

/-- Behaviour of calling the `main` entry point of a synthesized program
on the target URL. -/
inductive MainOutcome where
  | diverges
  | raises (e : String)
  | returns (v : PyVal)

/-- Behaviour of `exec`-ing a synthesized program text in the seeded
globals: the module body may loop forever, raise, complete without
defining `main`, or complete defining a `main` with the given behaviour. -/
inductive ExecBehavior where
  | execDiverges
  | execRaises (e : String)
  | noMain
  | withMain (f : String → MainOutcome)

/-- Opaque semantics of the execution environment: program text to the
behaviour of running it. -/
abbrev Sandbox := String → ExecBehavior

/-- Failure message used when an item is skipped for lack of code. -/
def noCodeMsg : String := "No code to execute"

/-- Embedding of one iteration of the loop in `execute_scraping_code_node`.
The source wraps `exec` and the `main` call in a per-item try, so raises
become failed records; but nothing bounds the running time of `exec` or
`main`, so a diverging program makes the iteration itself diverge. -/
def execute_one (sandbox : Sandbox) (ci : ScrapingCode) : StepRes ScrapedItem :=
  match ci.code with
  | none =>
    .ok { url := ci.url, data := PyVal.pynone, execution_success := false,
          error := some (ci.error.getD noCodeMsg) }
  | some c =>
    if ci.generation_success = false || c.isEmpty then
      .ok { url := ci.url, data := PyVal.pynone, execution_success := false,
            error := some (ci.error.getD noCodeMsg) }
    else
      match sandbox c with
      | ExecBehavior.execDiverges => .div
      | ExecBehavior.execRaises e =>
        .ok { url := ci.url, data := PyVal.pynone, execution_success := false,
              error := some e }
      | ExecBehavior.noMain =>
        .ok { url := ci.url, data := PyVal.pynone, execution_success := false,
              error := some "No main function found in generated code" }
      | ExecBehavior.withMain f =>
        match f ci.url with
        | MainOutcome.diverges => .div
        | MainOutcome.raises e =>
          .ok { url := ci.url, data := PyVal.pynone, execution_success := false,
                error := some e }
        | MainOutcome.returns v =>
          .ok { url := ci.url, data := v, execution_success := true, error := none }

/-- The sequential per-item loop of `execute_scraping_code_node`: an item
whose execution never returns makes the whole loop never return. -/
def execute_list (sandbox : Sandbox) : List ScrapingCode → StepRes (List ScrapedItem)
  | [] => .ok []
  | ci :: rest =>
    (execute_one sandbox ci).bind fun item =>
    (execute_list sandbox rest).bind fun items =>
    .ok (item :: items)

/-- Body of `execute_scraping_code_node` (after its progress-callback line). -/
def execute_scraping_code_core (sandbox : Sandbox) (st : WorkflowState) :
    StepRes WorkflowState :=
  (execute_list sandbox st.scraping_codes).bind fun items =>
  .ok { st with scraped_data := items }

/-- The canned summary used when no successful scraped data remains. -/
def canned_summary (topic : String) : String :=
  "關於主題 " ++ pyq ++ topic ++ pyq ++
  " 的爬蟲過程中沒有獲得有效數據，請檢查網站可訪問性或調整爬蟲策略。"

mutual

/-- JSON rendering of a payload value, as serialized into the summary
prompt by `json.dumps` (indentation abstracted). -/
def renderPyVal : PyVal → String
  | PyVal.pynone => "null"
  | PyVal.pystr s => "\"" ++ s ++ "\""
  | PyVal.pyint n => toString n
  | PyVal.pybool b => if b then "true" else "false"
  | PyVal.pylist xs => "[" ++ renderPyValList xs ++ "]"
  | PyVal.pydict kvs => "\x7b" ++ renderPyValDict kvs ++ "\x7d"

/-- Comma-joined rendering of the elements of a list value. -/
def renderPyValList : List PyVal → String
  | [] => ""
  | [x] => renderPyVal x
  | x :: y :: rest => renderPyVal x ++ ", " ++ renderPyValList (y :: rest)

/-- Comma-joined rendering of the entries of a dict value. -/
def renderPyValDict : List (String × PyVal) → String
  | [] => ""
  | [(k, v)] => "\"" ++ k ++ "\": " ++ renderPyVal v
  | (k, v) :: kv :: rest =>
    "\"" ++ k ++ "\": " ++ renderPyVal v ++ ", " ++ renderPyValDict (kv :: rest)

end

/-- Serialization of the successful-data list into the summary prompt. -/
def renderSuccessData (items : List ScrapedItem) : String :=
  "[" ++ String.intercalate ", " (items.map (fun i =>
    "\x7b\"url\": \"" ++ i.url ++ "\", \"content\": " ++ renderPyVal i.data ++ "\x7d")) ++ "]"

/-- The summary-agent system prompt rendered for a topic and its
successful data. -/
def summaryPromptText (topic : String) (items : List ScrapedItem) : String :=
  "你是一個專業的內容分析專家。請根據以下爬蟲獲取的數據，為主題 \"" ++ topic ++
  "\" 生成一個全面的摘要報告。\n\n爬蟲數據：\n" ++ renderSuccessData items ++
  "\n\n請提供：\n1. 主題的核心要點和關鍵信息\n2. 重要的統計數據或事實\n3. 最新的發展動態\n4. 相關的背景信息\n5. 值得關注的趋势或影響\n\n要求：\n- 內容要準確、客觀\n- 重點突出，層次分明\n- 適合用於後續的影片腳本創作\n- 字數控制在800-1200字之間\n"

/-- Body of `summary_agent_node` (after its progress-callback line),
paired with the number of generation-backend calls made. -/
def summary_agent_core (llm : LLM) (st : WorkflowState) : WorkflowState × Nat :=
  let successful_data := st.scraped_data.filter
    (fun i => i.execution_success && i.data.truthy)
  if successful_data.isEmpty then
    ({ st with summary := canned_summary st.topic }, 0)
  else
    match llm (summaryPromptText st.topic successful_data)
        ("請為主題 " ++ pyq ++ st.topic ++ pyq ++ " 生成摘要報告") with
    | Except.ok r => ({ st with summary := r }, 1)
    | Except.error e => ({ st with summary := "摘要生成過程中出現錯誤：" ++ e }, 1)

/-- The script-writer system prompt rendered for a topic and summary. -/
def scriptPromptText (topic summary : String) : String :=
  "你是一個專業的影片腳本作家。請根據提供的摘要內容，為主題 \"" ++ topic ++
  "\" 創作一個60秒的影片腳本。\n\n摘要內容：\n" ++ summary ++
  "\n\n腳本要求：\n1. 時長：適合60秒影片（約150-180字）\n2. 結構：開場白(10秒) + 主要內容(40秒) + 結論(10秒)\n3. 語調：專業但易懂，吸引觀眾\n4. 包含：關鍵統計數據、具體事實、行動呼籲\n5. 格式：標明時間節點和旁白內容\n\n請創作出引人入勝的影片腳本。\n"

/-- Body of `script_writer_node` (after its progress-callback line). -/
def script_writer_core (llm : LLM) (st : WorkflowState) : WorkflowState :=
  match llm (scriptPromptText st.topic st.summary)
      ("請為主題 " ++ pyq ++ st.topic ++ pyq ++ " 創作60秒影片腳本") with
  | Except.ok r => { st with video_script := r }
  | Except.error e => { st with video_script := "影片腳本創作過程中出現錯誤：" ++ e }

/-- The social-writer system prompt rendered from topic, script and summary. -/
def socialPromptText (topic script summary : String) : String :=
  "你是一個專業的社群媒體內容創作者。請根據影片腳本和摘要內容，為主題 \"" ++ topic ++
  "\" 創作社群媒體貼文。\n\n影片腳本：\n" ++ script ++
  "\n\n摘要內容：\n" ++ summary ++
  "\n\n請為以下平台創作內容：\n\n1. **Instagram/Facebook 貼文**：\n   - 吸引人的開場\n   - 2-3個關鍵點\n   - 相關標籤 (#hashtags)\n   - 行動呼籲\n\n2. **Twitter/X 推文**：\n   - 簡潔有力（280字以內）\n   - 包含1-2個要點\n   - 相關標籤\n\n3. **LinkedIn 文章**：\n   - 專業語調\n   - 深度分析\n   - 商業價值導向\n   - 專業標籤\n\n每個平台的內容要符合其特色和用戶習慣。\n"

/-- Body of `social_media_writer_node` (after its progress-callback line). -/
def social_media_writer_core (llm : LLM) (st : WorkflowState) : WorkflowState :=
  match llm (socialPromptText st.topic st.video_script st.summary)
      ("請為主題 " ++ pyq ++ st.topic ++ pyq ++ " 創作多平台社群媒體內容") with
  | Except.ok r => { st with social_media := r }
  | Except.error e => { st with social_media := "社群媒體內容創作過程中出現錯誤：" ++ e }

/-- The external environment of one run: the page fetcher, the generation
backend, and the semantics of executing synthesized program text. -/
structure Env where
  fetch : String → Except String Page
  llm : LLM
  sandbox : Sandbox

/-- Node 1, `analyze_urls_node`: progress callback, then the probe loop. -/
def analyze_urls_node (fetch : String → Except String Page) (cb : Option ProgressCallback)
    (st : WorkflowState) : StepRes WorkflowState :=
  (fireCallback cb "🔍 正在分析趨勢網站結構...").bind fun _ =>
  .ok (analyze_urls_core fetch st)

/-- Node 2, `generate_scraping_code_node`: progress callback, then the
synthesis loop. -/
def generate_scraping_code_node (llm : LLM) (cb : Option ProgressCallback)
    (st : WorkflowState) : StepRes WorkflowState :=
  (fireCallback cb "🤖 Code Agent 正在生成爬蟲程式碼...").bind fun _ =>
  .ok (generate_scraping_code_core llm st).1

/-- Node 3, `execute_scraping_code_node`: progress callback, then the
execution loop (which may diverge). -/
def execute_scraping_code_node (sandbox : Sandbox) (cb : Option ProgressCallback)
    (st : WorkflowState) : StepRes WorkflowState :=
  (fireCallback cb "⚙️ Code Executor 正在執行爬蟲程式碼...").bind fun _ =>
  execute_scraping_code_core sandbox st

/-- Node 4, `summary_agent_node`. -/
def summary_agent_node (llm : LLM) (cb : Option ProgressCallback)
    (st : WorkflowState) : StepRes WorkflowState :=
  (fireCallback cb "📋 Summary Agent 正在整合爬蟲結果...").bind fun _ =>
  .ok (summary_agent_core llm st).1

/-- Node 5, `script_writer_node`. -/
def script_writer_node (llm : LLM) (cb : Option ProgressCallback)
    (st : WorkflowState) : StepRes WorkflowState :=
  (fireCallback cb "🎬 Script Writer 正在創作影片腳本...").bind fun _ =>
  .ok (script_writer_core llm st)

/-- Node 6, `social_media_writer_node`. -/
def social_media_writer_node (llm : LLM) (cb : Option ProgressCallback)
    (st : WorkflowState) : StepRes WorkflowState :=
  (fireCallback cb "📱 Social Media Writer 正在創作社群媒體內容...").bind fun _ =>
  .ok (social_media_writer_core llm st)

/-- The compiled LangGraph state machine: the six nodes wired by the
linear edges set in `create_langgraph_workflow`. -/
def pipeline (env : Env) (cb : Option ProgressCallback) (st : WorkflowState) :
    StepRes WorkflowState :=
  (analyze_urls_node env.fetch cb st).bind fun s1 =>
  (generate_scraping_code_node env.llm cb s1).bind fun s2 =>
  (execute_scraping_code_node env.sandbox cb s2).bind fun s3 =>
  (summary_agent_node env.llm cb s3).bind fun s4 =>
  (script_writer_node env.llm cb s4).bind fun s5 =>
  social_media_writer_node env.llm cb s5

/-- The initial state built by `run_langgraph_workflow`. -/
def initial_state (topic : String) (trend_urls : List String) : WorkflowState :=
  { topic := topic, trend_urls := trend_urls, website_analyses := [],
    scraping_codes := [], scraped_data := [], summary := "", video_script := "",
    social_media := "", error_messages := [] }

/-- The final bundle returned to the caller. -/
structure Bundle where
  video_script : String
  social_media : String
  summary : String
  scraped_data_count : Nat
  processed_urls : List String
deriving DecidableEq

/-- The bundle the source builds from a completed final state. -/
def mkBundle (st : WorkflowState) : Bundle :=
  { video_script := st.video_script
    social_media := st.social_media
    summary := st.summary
    scraped_data_count := (st.scraped_data.filter (fun d => d.execution_success)).length
    processed_urls := st.website_analyses.map (fun a => a.url) }

/-- The defensive bundle built in the outermost except branch. -/
def errorBundle (e : String) : Bundle :=
  { video_script := "工作流程執行失敗：" ++ e
    social_media := "工作流程執行失敗：" ++ e
    summary := ""
    scraped_data_count := 0
    processed_urls := [] }

/-- The body of the outermost try in `run_langgraph_workflow`: bracket
callbacks around the state-machine invocation and return the final state. -/
def runAttempt (env : Env) (topic : String) (trend_urls : List String)
    (cb : Option ProgressCallback) : StepRes WorkflowState :=
  (fireCallback cb "🚀 啟動 LangGraph 工作流程...").bind fun _ =>
  (pipeline env cb (initial_state topic trend_urls)).bind fun s =>
  (fireCallback cb "✅ LangGraph 工作流程執行完成！").bind fun _ =>
  .ok s

/-- Embedding of `run_langgraph_workflow`: the outermost defensive catch
turns any escaped fault into the error bundle; a diverging run never
returns (`none`). -/
def run_langgraph_workflow (env : Env) (topic : String) (trend_urls : List String)
    (cb : Option ProgressCallback) : Option Bundle :=
  match runAttempt env topic trend_urls cb with
  | .div => none
  | .exn e => some (errorBundle e)
  | .ok s => some (mkBundle s)

/-- A fetch environment in which every request fails with a connection
error. -/
def fetchDown : String → Except String Page := fun _ => Except.error "connection refused"

/-- A page carrying a JSON-LD script block, every candidate selector
matching. -/
def pageJsonLd : Page :=
  { title := some "T", selectorHit := fun _ => true, hasJsonLdScript := true,
    hasMetaDescription := true, htmlLang := none, totalElements := 10,
    hasItemscopeOrVocab := false }

/-- A fetch environment that always returns `pageJsonLd`. -/
def fetchJsonLd : String → Except String Page := fun _ => Except.ok pageJsonLd

/-- A deterministic generation backend that always answers `R`. -/
def llmOkR : LLM := fun _ _ => Except.ok "R"

/-- A sandbox in which every program defines a `main` that returns the
string payload `d`. -/
def sandboxReturns : Sandbox :=
  fun _ => ExecBehavior.withMain (fun _ => MainOutcome.returns (PyVal.pystr "d"))

/-- A sandbox in which `exec` of any program never returns (the module
body loops forever). -/
def sandboxLoop : Sandbox := fun _ => ExecBehavior.execDiverges

/-- A progress callback that always returns normally. -/
def cbOk : ProgressCallback := fun _ => Except.ok ()

/-- A progress callback that raises on every invocation. -/
def cbRaise : ProgressCallback := fun _ => Except.error "boom"

/-- Environment: unreachable pages, deterministic backend, payload-returning
sandbox. -/
def envA : Env := { fetch := fetchDown, llm := llmOkR, sandbox := sandboxReturns }

/-- Environment whose sandbox diverges on every synthesized program. -/
def envLoop : Env := { fetch := fetchDown, llm := llmOkR, sandbox := sandboxLoop }

/-- A synthesized-program record whose module body is an infinite loop. -/
def loopProgram : ScrapingCode :=
  { url := "https://example.com/ai-news1", code := some "while True: pass",
    generation_success := true, error := none, structure_info := none }

/-- The per-item results of the aligned two-URL witness run. -/
def c2Items : List ScrapedItem :=
  [{ url := "u1", data := PyVal.pystr "d", execution_success := true, error := none },
   { url := "u2", data := PyVal.pystr "d", execution_success := true, error := none }]

theorem StepRes.bind_eq_ok {α β : Type} {x : StepRes α} {f : α → StepRes β} {b : β}
    (h : x.bind f = StepRes.ok b) : ∃ a, x = StepRes.ok a ∧ f a = StepRes.ok b := by
  cases x with
  | div => simp [StepRes.bind] at h
  | exn e => simp [StepRes.bind] at h
  | ok a => exact ⟨a, rfl, h⟩

theorem fireCallback_none (msg : String) : fireCallback none msg = StepRes.ok () := rfl

theorem fireCallback_of_ok (cb : ProgressCallback) (msg : String)
    (h : cb msg = Except.ok ()) : fireCallback (some cb) msg = StepRes.ok () := by
  simp [fireCallback, h]

theorem analyze_website_structure_url (fetch : String → Except String Page) (url : String) :
    (analyze_website_structure fetch url).url = url := by
  unfold analyze_website_structure
  cases fetch url <;> rfl

theorem analyze_urls_core_urls (fetch : String → Except String Page) (st : WorkflowState) :
    (analyze_urls_core fetch st).website_analyses.map (fun r => r.url) =
      st.trend_urls.take 3 := by
  unfold analyze_urls_core
  rw [List.map_map]
  have hid : ∀ a ∈ st.trend_urls.take 3,
      ((fun r => r.url) ∘
        analyze_one fun u => Except.ok (analyze_website_structure fetch u)) a = id a :=
    fun a _ => rfl
  rw [List.map_congr_left hid, List.map_id]

theorem analyze_urls_core_success (fetch : String → Except String Page) (st : WorkflowState) :
    ∀ r ∈ (analyze_urls_core fetch st).website_analyses,
      r.analysis_success = true ∧
      r.struct = some (analyze_website_structure fetch r.url) := by
  intro r hr
  unfold analyze_urls_core at hr
  simp only [List.mem_map] at hr
  obtain ⟨u, _, rfl⟩ := hr
  exact ⟨rfl, rfl⟩

theorem synthesize_one_calls_one (llm : LLM) (wa : AnalysisRecord)
    (h1 : wa.analysis_success = true) (h2 : wa.struct.isSome) :
    (synthesize_one llm wa).2 = 1 := by
  obtain ⟨s, hs⟩ := Option.isSome_iff_exists.mp h2
  unfold synthesize_one
  rw [h1, hs]
  simp only [Bool.true_eq_false, if_false]
  split <;> rfl

theorem synthesize_one_skip (llm : LLM) (wa : AnalysisRecord)
    (h : wa.analysis_success = false) :
    (synthesize_one llm wa).1.generation_success = false ∧
    (synthesize_one llm wa).2 = 0 := by
  unfold synthesize_one
  rw [h]
  exact ⟨rfl, rfl⟩

theorem synthesize_one_url (llm : LLM) (wa : AnalysisRecord)
    (h : ∀ s, wa.struct = some s → s.url = wa.url) :
    (synthesize_one llm wa).1.url = wa.url := by
  rcases wa with ⟨url, struct, succ, err⟩
  unfold synthesize_one
  dsimp only
  by_cases hs : succ = false
  · rw [if_pos hs]
  · rw [if_neg hs]
    cases struct with
    | none => rfl
    | some s =>
      have hu := h s rfl
      dsimp only at hu ⊢
      split <;> simp [hu]

theorem stage2_urls (fetch : String → Except String Page) (llm : LLM) (st : WorkflowState) :
    ((generate_scraping_code_core llm (analyze_urls_core fetch st)).1).scraping_codes.map
      (fun c => c.url) = st.trend_urls.take 3 := by
  unfold generate_scraping_code_core
  have hmap : ((analyze_urls_core fetch st).website_analyses.map
      (fun wa => (synthesize_one llm wa).1)).map (fun c => c.url) =
      (analyze_urls_core fetch st).website_analyses.map (fun r => r.url) := by
    rw [List.map_map]
    refine List.map_congr_left ?_
    intro wa hwa
    obtain ⟨hsucc, hstruct⟩ := analyze_urls_core_success fetch st wa hwa
    exact synthesize_one_url llm wa (by
      intro s hs
      rw [hstruct] at hs
      cases hs
      exact analyze_website_structure_url fetch wa.url)
  simpa [hmap] using analyze_urls_core_urls fetch st

theorem execute_one_url (sandbox : Sandbox) (ci : ScrapingCode) (item : ScrapedItem)
    (h : execute_one sandbox ci = StepRes.ok item) : item.url = ci.url := by
  unfold execute_one at h
  repeat' split at h
  all_goals first
    | (cases h; rfl)
    | simp at h

theorem execute_list_urls (sandbox : Sandbox) :
    ∀ (cis : List ScrapingCode) (items : List ScrapedItem),
      execute_list sandbox cis = StepRes.ok items →
      items.map (fun i => i.url) = cis.map (fun c => c.url) := by
  intro cis
  induction cis with
  | nil =>
    intro items h
    unfold execute_list at h
    cases h
    rfl
  | cons ci rest ih =>
    intro items h
    unfold execute_list at h
    obtain ⟨item, h1, h⟩ := StepRes.bind_eq_ok h
    obtain ⟨items2, h2, h3⟩ := StepRes.bind_eq_ok h
    cases h3
    simp [execute_one_url sandbox ci item h1, ih items2 h2]

theorem summary_core_preserves (llm : LLM) (st : WorkflowState) :
    ((summary_agent_core llm st).1).website_analyses = st.website_analyses ∧
    ((summary_agent_core llm st).1).scraped_data = st.scraped_data ∧
    ((summary_agent_core llm st).1).topic = st.topic := by
  unfold summary_agent_core
  dsimp only
  split
  · exact ⟨rfl, rfl, rfl⟩
  · split <;> exact ⟨rfl, rfl, rfl⟩

theorem script_core_preserves (llm : LLM) (st : WorkflowState) :
    (script_writer_core llm st).website_analyses = st.website_analyses ∧
    (script_writer_core llm st).scraped_data = st.scraped_data ∧
    (script_writer_core llm st).summary = st.summary := by
  unfold script_writer_core
  split <;> exact ⟨rfl, rfl, rfl⟩

theorem social_core_preserves (llm : LLM) (st : WorkflowState) :
    (social_media_writer_core llm st).website_analyses = st.website_analyses ∧
    (social_media_writer_core llm st).scraped_data = st.scraped_data ∧
    (social_media_writer_core llm st).summary = st.summary := by
  unfold social_media_writer_core
  split <;> exact ⟨rfl, rfl, rfl⟩

theorem pipeline_ok_inv (env : Env) (cb : Option ProgressCallback) (st s : WorkflowState)
    (h : pipeline env cb st = StepRes.ok s) :
    s.website_analyses = (analyze_urls_core env.fetch st).website_analyses := by
  unfold pipeline at h
  obtain ⟨s1, h1, h⟩ := StepRes.bind_eq_ok h
  obtain ⟨s2, h2, h⟩ := StepRes.bind_eq_ok h
  obtain ⟨s3, h3, h⟩ := StepRes.bind_eq_ok h
  obtain ⟨s4, h4, h⟩ := StepRes.bind_eq_ok h
  obtain ⟨s5, h5, h⟩ := StepRes.bind_eq_ok h
  unfold analyze_urls_node at h1
  obtain ⟨u1, hu1, h1⟩ := StepRes.bind_eq_ok h1
  cases h1
  unfold generate_scraping_code_node at h2
  obtain ⟨u2, hu2, h2⟩ := StepRes.bind_eq_ok h2
  cases h2
  unfold execute_scraping_code_node execute_scraping_code_core at h3
  obtain ⟨u3, hu3, h3⟩ := StepRes.bind_eq_ok h3
  obtain ⟨items, hitems, h3⟩ := StepRes.bind_eq_ok h3
  cases h3
  unfold summary_agent_node at h4
  obtain ⟨u4, hu4, h4⟩ := StepRes.bind_eq_ok h4
  cases h4
  unfold script_writer_node at h5
  obtain ⟨u5, hu5, h5⟩ := StepRes.bind_eq_ok h5
  cases h5
  unfold social_media_writer_node at h
  obtain ⟨u6, hu6, h⟩ := StepRes.bind_eq_ok h
  cases h
  rw [(social_core_preserves _ _).1, (script_core_preserves _ _).1,
    (summary_core_preserves _ _).1]
  rfl

theorem runAttempt_ok_inv (env : Env) (topic : String) (urls : List String)
    (cb : Option ProgressCallback) (s : WorkflowState)
    (h : runAttempt env topic urls cb = StepRes.ok s) :
    pipeline env cb (initial_state topic urls) = StepRes.ok s := by
  unfold runAttempt at h
  obtain ⟨u1, hu1, h⟩ := StepRes.bind_eq_ok h
  obtain ⟨s0, hp, h⟩ := StepRes.bind_eq_ok h
  obtain ⟨u2, hu2, h⟩ := StepRes.bind_eq_ok h
  cases h
  exact hp

/-- C1: for every topic, URL list, and progress callback,
`run_langgraph_workflow` never propagates a fault to the caller: its
result type carries no exception, and whenever it returns it returns
either the bundle of a completed final state or, when an unexpected
fault escaped the per-stage guards, the defensive bundle whose text
fields are the explanatory error string, whose summary is empty, whose
success count is 0, and whose processed-URL list is empty. (Bundle
well-formedness — string text fields, integer count, URL-list field — is
enforced by the `Bundle` type itself; the `none` case is the run never
returning at all, possible only through unbounded sandbox execution, and
is not a propagated fault.) -/
theorem c1_outer_defensive_boundary (env : Env) (topic : String) (urls : List String)
    (cb : Option ProgressCallback) :
    run_langgraph_workflow env topic urls cb = none ∨
    (∃ e, run_langgraph_workflow env topic urls cb = some (errorBundle e) ∧
      errorBundle e =
        { video_script := "工作流程執行失敗：" ++ e
          social_media := "工作流程執行失敗：" ++ e
          summary := ""
          scraped_data_count := 0
          processed_urls := [] }) ∨
    (∃ s, run_langgraph_workflow env topic urls cb = some (mkBundle s)) := by
  unfold run_langgraph_workflow
  cases h : runAttempt env topic urls cb with
  | div => exact Or.inl rfl
  | exn e => exact Or.inr (Or.inl ⟨e, rfl, rfl⟩)
  | ok s => exact Or.inr (Or.inr ⟨s, rfl⟩)

/-- C4: the structure probe is total — on any fetch, timeout, or parse
fault it returns the degraded fingerprint (general-scraping strategy,
fallback selectors, error text preserved in `meta_info`) instead of
raising, and the analysis stage still records an entry for the URL. -/
theorem c4_degraded_fingerprint (fetch : String → Except String Page) (url e : String)
    (st : WorkflowState) (h : fetch url = Except.error e)
    (hu : url ∈ st.trend_urls.take 3) :
    analyze_website_structure fetch url =
      { url := url, title := "Analysis failed", main_content_selectors := [],
        text_selectors := ["p", "h1", "h2", "h3"], image_selectors := ["img"],
        link_selectors := ["a"], meta_info := MetaInfo.failure e,
        suggested_approach := "general-scraping" } ∧
    ({ url := url, struct := some (analyze_website_structure fetch url),
       analysis_success := true, error := none } : AnalysisRecord) ∈
      (analyze_urls_core fetch st).website_analyses := by
  constructor
  · unfold analyze_website_structure
    rw [h]
  · unfold analyze_urls_core
    exact List.mem_map_of_mem _ hu

/-- Witness for C4 at a concrete failing fetch and URL list. -/
theorem c4_degraded_fingerprint_witness :
    fetchDown "u1" = Except.error "connection refused" ∧
    "u1" ∈ (initial_state "t" ["u1"]).trend_urls.take 3 ∧
    (analyze_website_structure fetchDown "u1" =
      { url := "u1", title := "Analysis failed", main_content_selectors := [],
        text_selectors := ["p", "h1", "h2", "h3"], image_selectors := ["img"],
        link_selectors := ["a"], meta_info := MetaInfo.failure "connection refused",
        suggested_approach := "general-scraping" } ∧
    ({ url := "u1", struct := some (analyze_website_structure fetchDown "u1"),
       analysis_success := true, error := none } : AnalysisRecord) ∈
      (analyze_urls_core fetchDown (initial_state "t" ["u1"])).website_analyses) :=
  ⟨rfl, by simp [initial_state],
    c4_degraded_fingerprint fetchDown "u1" "connection refused"
      (initial_state "t" ["u1"]) rfl (by simp [initial_state])⟩

/-- C10: the probe's totality makes the exception branch of the analyze
stage unreachable — every record it emits has `analysis_success = true`
and a present structure — and therefore the synthesis stage makes exactly
one generation-backend call per processed URL, degraded fingerprints
included. -/
theorem c10_exception_branch_unreachable (fetch : String → Except String Page)
    (llm : LLM) (st : WorkflowState) :
    (∀ r ∈ (analyze_urls_core fetch st).website_analyses,
      r.analysis_success = true ∧ (synthesize_one llm r).2 = 1) ∧
    synth_calls llm (analyze_urls_core fetch st).website_analyses =
      (st.trend_urls.take 3).length := by
  constructor
  · intro r hr
    obtain ⟨hs, hstruct⟩ := analyze_urls_core_success fetch st r hr
    exact ⟨hs, synthesize_one_calls_one llm r hs (by rw [hstruct]; rfl)⟩
  · unfold synth_calls
    have hone : ∀ r ∈ (analyze_urls_core fetch st).website_analyses,
        (fun wa => (synthesize_one llm wa).2) r = (fun _ => 1) r := by
      intro r hr
      obtain ⟨hs, hstruct⟩ := analyze_urls_core_success fetch st r hr
      exact synthesize_one_calls_one llm r hs (by rw [hstruct]; rfl)
    rw [List.map_congr_left hone]
    have hlen : (analyze_urls_core fetch st).website_analyses.length =
        (st.trend_urls.take 3).length := by
      unfold analyze_urls_core
      exact List.length_map _ _
    rw [← hlen]
    induction (analyze_urls_core fetch st).website_analyses with
    | nil => rfl
    | cons r rest ih => simp [ih]; omega

theorem synth_calls_filter (llm : LLM) : ∀ (was : List AnalysisRecord),
    (∀ r ∈ was, r.analysis_success = true → r.struct.isSome) →
    synth_calls llm was = (was.filter (fun r => r.analysis_success)).length := by
  intro was
  induction was with
  | nil => intro _; rfl
  | cons r rest ih =>
    intro hwf
    have hrest : ∀ x ∈ rest, x.analysis_success = true → x.struct.isSome :=
      fun x hx => hwf x (List.mem_cons_of_mem r hx)
    cases hsucc : r.analysis_success with
    | false =>
      have h0 := (synthesize_one_skip llm r hsucc).2
      simp only [synth_calls, List.map_cons, List.sum_cons, h0, List.filter_cons, hsucc]
      simpa [synth_calls] using ih hrest
    | true =>
      have h1 := synthesize_one_calls_one llm r hsucc (hwf r (List.mem_cons_self r rest) hsucc)
      simp only [synth_calls, List.map_cons, List.sum_cons, h1, List.filter_cons, hsucc]
      have hrec := ih hrest
      simp only [synth_calls] at hrec
      simp [hrec]
      omega

/-- C3: synthesis short-circuits failed probes — a record whose analysis
failed yields a failed program with no backend call attributable to it —
and across the stage the backend call count equals the number of
successfully probed records (assuming the analyze-stage invariant that a
successful record carries its structure). -/
theorem c3_short_circuit (llm : LLM) (was : List AnalysisRecord)
    (hwf : ∀ r ∈ was, r.analysis_success = true → r.struct.isSome) :
    (∀ r ∈ was, r.analysis_success = false →
      (synthesize_one llm r).1.generation_success = false ∧
      (synthesize_one llm r).2 = 0) ∧
    synth_calls llm was = (was.filter (fun r => r.analysis_success)).length := by
  exact ⟨fun r _ hr => synthesize_one_skip llm r hr, synth_calls_filter llm was hwf⟩

/-- The mixed probe-outcome record list used to witness C3. -/
def c3Records : List AnalysisRecord :=
  [{ url := "u1", struct := none, analysis_success := false, error := some "boom" },
   { url := "u2",
     struct := some (analyze_website_structure fetchJsonLd "u2"),
     analysis_success := true, error := none }]

/-- Witness for C3 on a list with one failed and one successful probe. -/
theorem c3_short_circuit_witness :
    (∀ r ∈ c3Records, r.analysis_success = true → r.struct.isSome) ∧
    ((∀ r ∈ c3Records, r.analysis_success = false →
      (synthesize_one llmOkR r).1.generation_success = false ∧
      (synthesize_one llmOkR r).2 = 0) ∧
    synth_calls llmOkR c3Records =
      (c3Records.filter (fun r => r.analysis_success)).length) := by
  refine ⟨?_, c3_short_circuit llmOkR c3Records ?_⟩ <;>
    · intro r hr
      rcases List.mem_cons.mp hr with h | h
      · subst h; intro hx; cases hx
      · rcases List.mem_cons.mp h with h2 | h2
        · subst h2; intro _; rfl
        · cases h2

/-- C5: when no extraction result is both successful and truthy-payloaded,
the summarize stage produces the canned topic-mentioning message with
zero generation-backend calls, and the downstream script and social
stages still complete. -/
theorem c5_empty_success_canned (llm : LLM) (st : WorkflowState)
    (h : st.scraped_data.filter (fun i => i.execution_success && i.data.truthy) = []) :
    (summary_agent_core llm st).1.summary = canned_summary st.topic ∧
    (summary_agent_core llm st).2 = 0 ∧
    ∃ s, ((summary_agent_node llm none st).bind fun s4 =>
        (script_writer_node llm none s4).bind fun s5 =>
        social_media_writer_node llm none s5) = StepRes.ok s ∧
      s.summary = canned_summary st.topic := by
  have hcore : summary_agent_core llm st =
      ({ st with summary := canned_summary st.topic }, 0) := by
    unfold summary_agent_core
    simp [h]
  refine ⟨by rw [hcore], by rw [hcore],
    ⟨social_media_writer_core llm (script_writer_core llm
      ({ st with summary := canned_summary st.topic })), ?_, ?_⟩⟩
  · show StepRes.ok (social_media_writer_core llm (script_writer_core llm
        (summary_agent_core llm st).1)) = _
    rw [hcore]
  · rw [(social_core_preserves _ _).2.2, (script_core_preserves _ _).2.2]

/-- The state (one failed extraction item) used to witness C5. -/
def c5State : WorkflowState :=
  { initial_state "t" ["u"] with
    scraped_data :=
      [{ url := "u", data := PyVal.pynone, execution_success := false,
         error := some "err" }] }

/-- Witness for C5 on a state with a single failed extraction. -/
theorem c5_empty_success_canned_witness :
    c5State.scraped_data.filter
      (fun i => i.execution_success && i.data.truthy) = [] ∧
    ((summary_agent_core llmOkR c5State).1.summary = canned_summary c5State.topic ∧
    (summary_agent_core llmOkR c5State).2 = 0 ∧
    ∃ s, ((summary_agent_node llmOkR none c5State).bind fun s4 =>
        (script_writer_node llmOkR none s4).bind fun s5 =>
        social_media_writer_node llmOkR none s5) = StepRes.ok s ∧
      s.summary = canned_summary c5State.topic) :=
  ⟨rfl, c5_empty_success_canned llmOkR c5State rfl⟩

/-- C7: on a successfully fetched and parsed page the probe keeps the
first 3 matching main-content, 5 text, 3 image, and 3 link candidate
selectors, and picks the strategy by priority: JSON-LD structured-data
script blocks present → json-ld; else matching main-content selectors →
content-selector; else matching text selectors → text-extraction; else
general-scraping. (The `has_structured_data` itemscope flag is collected
in `meta_info` but plays no part in the priority; the structured-data
test is the JSON-LD flag, as in the source.) -/
theorem c7_strategy_priority (fetch : String → Except String Page) (url : String)
    (page : Page) (h : fetch url = Except.ok page) :
    ((analyze_website_structure fetch url).main_content_selectors =
        (mainContentCandidates.filter page.selectorHit).take 3 ∧
      (analyze_website_structure fetch url).text_selectors =
        (textCandidates.filter page.selectorHit).take 5 ∧
      (analyze_website_structure fetch url).image_selectors =
        (imageCandidates.filter page.selectorHit).take 3 ∧
      (analyze_website_structure fetch url).link_selectors =
        (linkCandidates.filter page.selectorHit).take 3) ∧
    (page.hasJsonLdScript = true →
      (analyze_website_structure fetch url).suggested_approach = "json-ld") ∧
    (page.hasJsonLdScript = false →
      mainContentCandidates.filter page.selectorHit ≠ [] →
      (analyze_website_structure fetch url).suggested_approach = "content-selector") ∧
    (page.hasJsonLdScript = false →
      mainContentCandidates.filter page.selectorHit = [] →
      textCandidates.filter page.selectorHit ≠ [] →
      (analyze_website_structure fetch url).suggested_approach = "text-extraction") ∧
    (page.hasJsonLdScript = false →
      mainContentCandidates.filter page.selectorHit = [] →
      textCandidates.filter page.selectorHit = [] →
      (analyze_website_structure fetch url).suggested_approach = "general-scraping") := by
  have happ : (analyze_website_structure fetch url).suggested_approach =
      (if page.hasJsonLdScript then "json-ld"
       else if !(mainContentCandidates.filter page.selectorHit).isEmpty then
         "content-selector"
       else if !(textCandidates.filter page.selectorHit).isEmpty then
         "text-extraction"
       else "general-scraping") := by
    unfold analyze_website_structure
    rw [h]
  have hmain : (analyze_website_structure fetch url).main_content_selectors =
      (mainContentCandidates.filter page.selectorHit).take 3 := by
    unfold analyze_website_structure
    rw [h]
  have htext : (analyze_website_structure fetch url).text_selectors =
      (textCandidates.filter page.selectorHit).take 5 := by
    unfold analyze_website_structure
    rw [h]
  have himg : (analyze_website_structure fetch url).image_selectors =
      (imageCandidates.filter page.selectorHit).take 3 := by
    unfold analyze_website_structure
    rw [h]
  have hlink : (analyze_website_structure fetch url).link_selectors =
      (linkCandidates.filter page.selectorHit).take 3 := by
    unfold analyze_website_structure
    rw [h]
  refine ⟨⟨hmain, htext, himg, hlink⟩, ?_, ?_, ?_, ?_⟩
  · intro hj
    rw [happ, if_pos hj]
  · intro hj hm
    rw [happ, if_neg (by rw [hj]; exact Bool.false_ne_true)]
    cases hmains : mainContentCandidates.filter page.selectorHit with
    | nil => exact absurd hmains hm
    | cons a l => simp [hmains]
  · intro hj hm ht
    rw [happ, if_neg (by rw [hj]; exact Bool.false_ne_true)]
    rw [hm]
    cases htexts : textCandidates.filter page.selectorHit with
    | nil => exact absurd htexts ht
    | cons a l => simp [htexts]
  · intro hj hm ht
    rw [happ, if_neg (by rw [hj]; exact Bool.false_ne_true)]
    rw [hm, ht]
    rfl

/-- Witness for C7 on a page with a JSON-LD block where every selector
matches. -/
theorem c7_strategy_priority_witness :
    fetchJsonLd "u" = Except.ok pageJsonLd ∧
    (((analyze_website_structure fetchJsonLd "u").main_content_selectors =
        (mainContentCandidates.filter pageJsonLd.selectorHit).take 3 ∧
      (analyze_website_structure fetchJsonLd "u").text_selectors =
        (textCandidates.filter pageJsonLd.selectorHit).take 5 ∧
      (analyze_website_structure fetchJsonLd "u").image_selectors =
        (imageCandidates.filter pageJsonLd.selectorHit).take 3 ∧
      (analyze_website_structure fetchJsonLd "u").link_selectors =
        (linkCandidates.filter pageJsonLd.selectorHit).take 3) ∧
    (pageJsonLd.hasJsonLdScript = true →
      (analyze_website_structure fetchJsonLd "u").suggested_approach = "json-ld") ∧
    (pageJsonLd.hasJsonLdScript = false →
      mainContentCandidates.filter pageJsonLd.selectorHit ≠ [] →
      (analyze_website_structure fetchJsonLd "u").suggested_approach = "content-selector") ∧
    (pageJsonLd.hasJsonLdScript = false →
      mainContentCandidates.filter pageJsonLd.selectorHit = [] →
      textCandidates.filter pageJsonLd.selectorHit ≠ [] →
      (analyze_website_structure fetchJsonLd "u").suggested_approach = "text-extraction") ∧
    (pageJsonLd.hasJsonLdScript = false →
      mainContentCandidates.filter pageJsonLd.selectorHit = [] →
      textCandidates.filter pageJsonLd.selectorHit = [] →
      (analyze_website_structure fetchJsonLd "u").suggested_approach =
        "general-scraping")) :=
  ⟨rfl, c7_strategy_priority fetchJsonLd "u" pageJsonLd rfl⟩

/-- C2: the fingerprint, program, and result lists all track the admitted
seed URLs (the first 3 input URLs) position by position — equal lengths
and, at each index, the same URL, degraded records included. Stated via
map-on-url equalities, which give both the lengths and the per-index
URLs. -/
theorem c2_index_alignment (fetch : String → Except String Page) (llm : LLM)
    (sandbox : Sandbox) (st : WorkflowState) (items : List ScrapedItem)
    (hx : execute_list sandbox
      ((generate_scraping_code_core llm (analyze_urls_core fetch st)).1).scraping_codes =
      StepRes.ok items) :
    (analyze_urls_core fetch st).website_analyses.map (fun r => r.url) =
      st.trend_urls.take 3 ∧
    ((generate_scraping_code_core llm (analyze_urls_core fetch st)).1).scraping_codes.map
      (fun c => c.url) = st.trend_urls.take 3 ∧
    items.map (fun i => i.url) = st.trend_urls.take 3 := by
  refine ⟨analyze_urls_core_urls fetch st, stage2_urls fetch llm st, ?_⟩
  rw [execute_list_urls sandbox _ items hx]
  exact stage2_urls fetch llm st

/-- Witness for C2 on a two-URL run whose probes fail and whose programs
execute successfully. -/
theorem c2_index_alignment_witness :
    execute_list sandboxReturns
      ((generate_scraping_code_core llmOkR
        (analyze_urls_core fetchDown (initial_state "t" ["u1", "u2"]))).1).scraping_codes =
      StepRes.ok c2Items ∧
    ((analyze_urls_core fetchDown (initial_state "t" ["u1", "u2"])).website_analyses.map
        (fun r => r.url) = (initial_state "t" ["u1", "u2"]).trend_urls.take 3 ∧
      ((generate_scraping_code_core llmOkR
        (analyze_urls_core fetchDown (initial_state "t" ["u1", "u2"]))).1).scraping_codes.map
        (fun c => c.url) = (initial_state "t" ["u1", "u2"]).trend_urls.take 3 ∧
      c2Items.map (fun i => i.url) = (initial_state "t" ["u1", "u2"]).trend_urls.take 3) :=
  ⟨rfl, c2_index_alignment fetchDown llmOkR sandboxReturns
    (initial_state "t" ["u1", "u2"]) c2Items rfl⟩

/-- C6: whenever the run returns a bundle, `processed_urls` has at most 3
entries and is either empty (defensive bundle) or exactly the first 3
input URLs; the analyze stage itself always processes exactly the first
3 input URLs, silently dropping the excess. -/
theorem c6_url_cap (env : Env) (topic : String) (urls : List String)
    (cb : Option ProgressCallback) (b : Bundle)
    (h : run_langgraph_workflow env topic urls cb = some b) :
    b.processed_urls.length ≤ 3 ∧
    (b.processed_urls = [] ∨ b.processed_urls = urls.take 3) ∧
    (analyze_urls_core env.fetch (initial_state topic urls)).website_analyses.map
      (fun r => r.url) = urls.take 3 := by
  have hstage := analyze_urls_core_urls env.fetch (initial_state topic urls)
  unfold run_langgraph_workflow at h
  cases hr : runAttempt env topic urls cb with
  | div => rw [hr] at h; cases h
  | exn e =>
    rw [hr] at h
    cases h
    exact ⟨by simp [errorBundle], Or.inl rfl, hstage⟩
  | ok s =>
    rw [hr] at h
    cases h
    have hp := pipeline_ok_inv env cb (initial_state topic urls) s
      (runAttempt_ok_inv env topic urls cb s hr)
    have hproc : (mkBundle s).processed_urls = urls.take 3 := by
      show s.website_analyses.map (fun a => a.url) = urls.take 3
      rw [hp]
      exact hstage
    refine ⟨?_, Or.inr hproc, hstage⟩
    rw [hproc]
    exact le_trans (List.length_take_le 3 urls) (le_refl 3)

/-- The seven input URLs of the cap-enforcement witness. -/
def urls7 : List String := ["u1", "u2", "u3", "u4", "u5", "u6", "u7"]

/-- The bundle produced on the seven-URL witness run. -/
def c6Bundle : Bundle :=
  { video_script := "R", social_media := "R", summary := "R",
    scraped_data_count := 3, processed_urls := ["u1", "u2", "u3"] }

/-- Witness for C6: of seven input URLs exactly the first three are
processed. -/
theorem c6_url_cap_witness :
    run_langgraph_workflow envA "t" urls7 none = some c6Bundle ∧
    (c6Bundle.processed_urls.length ≤ 3 ∧
      (c6Bundle.processed_urls = [] ∨ c6Bundle.processed_urls = urls7.take 3) ∧
      (analyze_urls_core envA.fetch (initial_state "t" urls7)).website_analyses.map
        (fun r => r.url) = urls7.take 3) :=
  ⟨rfl, c6_url_cap envA "t" urls7 none c6Bundle rfl⟩

/-- C8 (claim refuted by the code): the execution stage contains no
timeout — a synthesized program whose module body never returns makes
the per-item step, the whole stage, and the whole run never return
(`StepRes.div` / `none` embed nontermination). The claimed 30–60-second
wall-clock bound exists only in the unused
`tools/web_scraper_tools.execute_python_code` helper of the
conversational variant, not at this call site. -/
theorem c8_execution_unbounded :
    execute_one sandboxLoop loopProgram = StepRes.div ∧
    execute_list sandboxLoop [loopProgram] = StepRes.div ∧
    run_langgraph_workflow envLoop "AI trends" ["u1"] none = none :=
  ⟨rfl, rfl, rfl⟩

/-- The bundle produced by the single-URL benign run used in the C9
counterexample. -/
def c9Bundle : Bundle :=
  { video_script := "R", social_media := "R", summary := "R",
    scraped_data_count := 1, processed_urls := ["u"] }

/-- C9 (counterexample): a progress callback that raises when invoked
does alter the pipeline's observable behaviour — the run aborts to the
defensive bundle instead of producing the normal bundle, so the claim as
stated (callback never alters control flow, including a raising one) is
false of the code. -/
theorem c9_raising_callback_alters_run :
    run_langgraph_workflow envA "t" ["u"] (some cbRaise) = some (errorBundle "boom") ∧
    run_langgraph_workflow envA "t" ["u"] none = some c9Bundle ∧
    errorBundle "boom" ≠ c9Bundle := by
  refine ⟨rfl, rfl, ?_⟩
  intro hcontra
  have : (errorBundle "boom").scraped_data_count = c9Bundle.scraped_data_count := by
    rw [hcontra]
  simp [errorBundle, c9Bundle] at this

/-- C9 (amended): a progress callback that never raises does not alter
the pipeline's behaviour — the run returns exactly the bundle it returns
with no callback; a raising callback instead aborts the run to the
defensive bundle. -/
theorem c9_benign_callback_transparent (env : Env) (topic : String)
    (urls : List String) (cb : ProgressCallback)
    (h : ∀ m, cb m = Except.ok ()) :
    run_langgraph_workflow env topic urls (some cb) =
      run_langgraph_workflow env topic urls none := by
  have hfire : ∀ m, fireCallback (some cb) m = fireCallback none m := by
    intro m
    simp [fireCallback, h m]
  unfold run_langgraph_workflow runAttempt pipeline analyze_urls_node
    generate_scraping_code_node execute_scraping_code_node summary_agent_node
    script_writer_node social_media_writer_node
  simp only [hfire]

/-- Witness for the amended C9 with a concrete never-raising callback. -/
theorem c9_benign_callback_transparent_witness :
    (∀ m, cbOk m = Except.ok ()) ∧
    run_langgraph_workflow envA "t" ["u"] (some cbOk) =
      run_langgraph_workflow envA "t" ["u"] none :=
  ⟨fun _ => rfl,
    c9_benign_callback_transparent envA "t" ["u"] cbOk (fun _ => rfl)⟩
